import Mathlib

/-!
Shallow embedding of the rust-multiplatform framework core
(src/macros.rs, src/utils.rs, src/traits/mod.rs, src/tests.rs).

Rust panics (calls to .expect that fail) are modelled as `Except.error msg`
where `msg` is the literal expect message from the source; a normal return is
`Except.ok`.  Across the FFI boundary a panic aborts, so `Except.error` stands
for "the process aborts with this panic message", not for a recoverable value:
the generated Rust functions return unit and have no error channel at all.
-/

namespace RustMultiplatform

/-- State of the std RwLock wrapped around the global model
(GLOBAL_MODEL : OnceCell of RwLock of Model, macros.rs step 1).
`poisoned` is true when a prior writer panicked while holding the write lock;
std RwLock then reports PoisonError on every later acquisition. -/
structure RwLockState (M : Type) where
  model : M
  poisoned : Bool
deriving DecidableEq, Repr

/-- The generated FFI wrapper struct (macros.rs step 3): it only carries the
data_dir string handed to the constructor. -/
structure RmpModel where
  data_dir : String
deriving DecidableEq, Repr

/-- Result of one call to get_or_set_global_model: the lock handed back to the
caller, the contents of the global OnceCell afterwards, and the list of
data_dir arguments passed to the Model factory create during the call
(empty when the cell was already initialized, a singleton when this call
constructed the model). -/
structure GetResult (M : Type) where
  lock : RwLockState M
  global : Option (RwLockState M)
  createCalls : List String
deriving DecidableEq, Repr

/-- Embedding of RmpModel::get_or_set_global_model (macros.rs lines 116-125):
GLOBAL_MODEL.get_or_init runs the closure only when the cell is empty; the
closure calls create(self.data_dir.clone()) and wraps the model in a fresh
(unpoisoned) RwLock.  The global cell is explicit state: `g` is its contents
before the call. -/
def RmpModel.get_or_set_global_model {M : Type} (create : String → M)
    (self : RmpModel) (g : Option (RwLockState M)) : GetResult M :=
  match g with
  | some l => ⟨l, some l, []⟩
  | none =>
      let m := create self.data_dir
      ⟨⟨m, false⟩, some ⟨m, false⟩, [self.data_dir]⟩

/-- Embedding of RmpModel::action (macros.rs lines 67-77): get or create the
global model, take the write lock with
.expect "Failed to acquire write lock on model" (a panic when the lock is
poisoned), then run the RmpAppModel action step on the locked model.
Returns the new contents of the global cell, or the panic message. -/
def RmpModel.action {M A : Type} (create : String → M) (step : M → A → M)
    (self : RmpModel) (a : A) (g : Option (RwLockState M)) :
    Except String (Option (RwLockState M)) :=
  let r := RmpModel.get_or_set_global_model create self g
  if r.lock.poisoned then
    Except.error "Failed to acquire write lock on model"
  else
    Except.ok (some ⟨step r.lock.model a, false⟩)

/-- Embedding of RmpModel::listen_for_model_updates (macros.rs lines 79-88)
together with the utility listen_for_model_updates (utils.rs lines 11-26):
get or create the global model, take the read lock with
.expect "Failed to acquire read lock on model" (a panic when poisoned), then
unconditionally spawn one forwarder thread holding a clone of the update
receiver.  `forwarders` counts the forwarder threads spawned so far; the
source has no guard against spawning more than one. -/
def RmpModel.listen_for_model_updates {M : Type} (create : String → M)
    (self : RmpModel) (g : Option (RwLockState M)) (forwarders : Nat) :
    Except String (Option (RwLockState M) × Nat) :=
  let r := RmpModel.get_or_set_global_model create self g
  if r.lock.poisoned then
    Except.error "Failed to acquire read lock on model"
  else
    Except.ok (r.global, forwarders + 1)

/-- Trace of a sequence of get_or_set_global_model calls: the lock returned to
each caller in order, the final contents of the global cell, and every
data_dir passed to the Model factory create across the whole sequence. -/
structure RunResult (M : Type) where
  returns : List (RwLockState M)
  global : Option (RwLockState M)
  createCalls : List String
deriving DecidableEq, Repr

/-- Run get_or_set_global_model once per RmpModel instance in `selves`, in
order, threading the global cell through. -/
def runGetCalls {M : Type} (create : String → M) :
    List RmpModel → Option (RwLockState M) → RunResult M
  | [], g => ⟨[], g, []⟩
  | self :: rest, g =>
      let r := RmpModel.get_or_set_global_model create self g
      let tail := runGetCalls create rest r.global
      ⟨r.lock :: tail.returns, tail.global, r.createCalls ++ tail.createCalls⟩

/-- Once the cell is initialized, get_or_set_global_model returns the stored
lock unchanged and never calls the factory. -/
theorem get_or_set_initialized {M : Type} (create : String → M)
    (self : RmpModel) (l : RwLockState M) :
    RmpModel.get_or_set_global_model create self (some l) = ⟨l, some l, []⟩ :=
  rfl

/-- On an initialized cell, any further sequence of calls returns the stored
lock to every caller and never calls the factory. -/
theorem runGetCalls_initialized {M : Type} (create : String → M)
    (selves : List RmpModel) (l : RwLockState M) :
    runGetCalls create selves (some l) =
      ⟨List.replicate selves.length l, some l, []⟩ := by
  induction selves with
  | nil => rfl
  | cons self rest ih =>
      simp [runGetCalls, RmpModel.get_or_set_global_model, ih, List.replicate]

/-- A crossbeam unbounded channel (utils.rs create_model_update_channel):
a FIFO buffer plus the number of live senders.  recv returns the oldest
buffered item; on an empty buffer it blocks while a sender is alive and
reports disconnection once all senders are dropped. -/
structure Channel (U : Type) where
  buffer : List U
  senders : Nat
deriving DecidableEq, Repr

/-- Successful crossbeam send: appends the item at the back of the FIFO. -/
def Channel.push {U : Type} (c : Channel U) (u : U) : Channel U :=
  ⟨c.buffer ++ [u], c.senders⟩

/-- Push a whole sequence of updates, oldest first. -/
def Channel.pushAll {U : Type} (c : Channel U) (us : List U) : Channel U :=
  us.foldl Channel.push c

/-- How a run of the forwarder loop ends.  closedNormal: recv reported the
channel disconnected (all senders dropped), the while-let exits and the
thread ends without signalling anything.  waiting: the buffer is drained but
a sender is still alive, so the real thread is blocked inside recv awaiting
the next item. -/
inductive ForwarderStop
  | closedNormal
  | waiting
deriving DecidableEq, Repr

/-- Embedding of the forwarder thread body spawned by
listen_for_model_updates (utils.rs lines 21-25):
while let Ok(update) = model_update_rx.recv() do view_model.model_update(update).
Returns the list of observer callback invocations, in invocation order (each
callback completes before the next recv), and how the loop stopped. -/
def runForwarder {U V : Type} (notify : U → V) : Channel U → List V × ForwarderStop
  | ⟨[], senders⟩ =>
      if senders = 0 then ([], ForwarderStop.closedNormal)
      else ([], ForwarderStop.waiting)
  | ⟨u :: rest, senders⟩ =>
      let r := runForwarder notify ⟨rest, senders⟩
      (notify u :: r.1, r.2)

/-- Pushing a sequence onto a channel appends it to the buffer in order. -/
theorem pushAll_buffer {U : Type} (us : List U) (buf : List U) (n : Nat) :
    Channel.pushAll ⟨buf, n⟩ us = ⟨buf ++ us, n⟩ := by
  induction us generalizing buf with
  | nil => simp [Channel.pushAll]
  | cons u rest ih =>
      simp only [Channel.pushAll, List.foldl, Channel.push] at *
      rw [ih (buf ++ [u])]
      simp

/-- The forwarder drains a buffer into one callback per item, in order. -/
theorem runForwarder_buffer {U V : Type} (notify : U → V) (us : List U) (n : Nat) :
    runForwarder notify ⟨us, n⟩ =
      (us.map notify,
        if n = 0 then ForwarderStop.closedNormal else ForwarderStop.waiting) := by
  induction us with
  | nil => by_cases h : n = 0 <;> simp [runForwarder, h]
  | cons u rest ih => simp [runForwarder, ih]

/-- The sending half of the update channel as held by the generated ViewModel
wrapper (macros.rs step 7 stores ViewModel(sender) in GLOBAL_VIEW_MODEL).
`sid` distinguishes distinct senders, `queue` is the buffer of the channel
this sender feeds, `receiverAlive` records whether the receiving half still
exists (crossbeam send fails once every receiver is dropped). -/
structure Sender (U : Type) where
  sid : Nat
  queue : List U
  receiverAlive : Bool
deriving DecidableEq, Repr

namespace ViewModel

/-- Embedding of the generated ViewModel::init (macros.rs lines 138-140):
GLOBAL_VIEW_MODEL.get_or_init keeps the stored value when present and stores
the given sender otherwise.  `cell` is the cell contents before the call. -/
def init {U : Type} (sender : Sender U) (cell : Option (Sender U)) :
    Option (Sender U) :=
  match cell with
  | some vm => some vm
  | none => some sender

/-- Embedding of the generated ViewModel::model_update (macros.rs lines
142-149): when GLOBAL_VIEW_MODEL is unset the update is silently dropped and
the function returns normally; when set, the stored sender sends the update
with .expect "Failed to send model update", which panics when the receiving
half is gone.  Returns the new cell contents (the stored sender with the
update appended to its channel buffer on a successful send). -/
def model_update {U : Type} (u : U) (cell : Option (Sender U)) :
    Except String (Option (Sender U)) :=
  match cell with
  | none => Except.ok none
  | some vm =>
      if vm.receiverAlive then
        Except.ok (some { vm with queue := vm.queue ++ [u] })
      else
        Except.error "Failed to send model update"

end ViewModel

/-- Run ViewModel.init once per sender in the list, in order. -/
def initAll {U : Type} (senders : List (Sender U)) (cell : Option (Sender U)) :
    Option (Sender U) :=
  senders.foldl (fun c s => ViewModel.init s c) cell

/-- Once the registry cell holds a sender, any further inits leave it as is. -/
theorem initAll_initialized {U : Type} (senders : List (Sender U))
    (vm : Sender U) : initAll senders (some vm) = some vm := by
  induction senders with
  | nil => rfl
  | cons s rest ih => simpa [initAll, ViewModel.init] using ih

/-- The test action type from src/tests.rs. -/
inductive TestAction
  | testAction
deriving DecidableEq, Repr

/-- The test model from src/tests.rs: a counter plus the data_dir it was
created from.  The count field is an i32 in the source; the scenarios proved
here increment it once from zero, far from the i32 range, so it is embedded
as an integer. -/
structure TestModel where
  count : Int
  data_dir : String
deriving DecidableEq, Repr

/-- RmpAppModel::create for TestModel (tests.rs lines 31-36). -/
def TestModel.create (dd : String) : TestModel := ⟨0, dd⟩

/-- RmpAppModel::action for TestModel (tests.rs lines 38-42): the single
TestAction increments the counter. -/
def TestModel.actionStep : TestModel → TestAction → TestModel
  | m, TestAction.testAction => { m with count := m.count + 1 }

/-- True when the embedded Rust call panicked (the process aborts) rather
than returning normally. -/
def isPanic {E A : Type} : Except E A → Bool
  | Except.error _ => true
  | Except.ok _ => false

/-- Claim C1, counterexample: dispatching TestAction on an RmpModel whose
global lock is poisoned does not return a recoverable LockPoisoned error; it
panics via .expect with message "Failed to acquire write lock on model",
aborting the caller.  The generated action function returns unit and has no
error channel, so no recoverable error can reach the caller. -/
theorem c1_counterexample :
    RmpModel.action TestModel.create TestModel.actionStep ⟨"x"⟩
        TestAction.testAction (some ⟨TestModel.create "x", true⟩) =
      Except.error "Failed to acquire write lock on model" ∧
    isPanic (RmpModel.action TestModel.create TestModel.actionStep ⟨"x"⟩
        TestAction.testAction (some ⟨TestModel.create "x", true⟩)) = true :=
  ⟨rfl, rfl⟩

/-- Claim C1 (amended): when the global lock is poisoned by a prior
panicking writer, a subsequent RmpModel::action call panics with the expect
message "Failed to acquire write lock on model" — a process abort, not a
recoverable error returned to the caller. -/
theorem c1_poisoned_action_panics (M A : Type) (create : String → M)
    (step : M → A → M) (self : RmpModel) (a : A) (m : M) :
    RmpModel.action create step self a (some ⟨m, true⟩) =
      Except.error "Failed to acquire write lock on model" :=
  rfl

/-- Instance of c1_poisoned_action_panics at the test model. -/
theorem c1_poisoned_action_panics_witness :
    RmpModel.action TestModel.create TestModel.actionStep ⟨"y"⟩
        TestAction.testAction (some ⟨TestModel.create "y", true⟩) =
      Except.error "Failed to acquire write lock on model" :=
  c1_poisoned_action_panics TestModel TestAction TestModel.create
    TestModel.actionStep ⟨"y"⟩ TestAction.testAction (TestModel.create "y")

/-- Claim C2: across any sequence of get_or_set_global_model calls starting
from the uninitialized cell, the Model factory create runs exactly once,
with the first data_dir, every caller gets back the same single instance,
and the cell ends holding that instance. -/
theorem c2_global_model_created_once (M : Type) (create : String → M)
    (self1 : RmpModel) (rest : List RmpModel) :
    runGetCalls create (self1 :: rest) none =
      ⟨List.replicate (rest.length + 1) ⟨create self1.data_dir, false⟩,
        some ⟨create self1.data_dir, false⟩, [self1.data_dir]⟩ := by
  show (⟨_ :: _, _, _⟩ : RunResult M) = _
  simp only [RmpModel.get_or_set_global_model, runGetCalls_initialized]
  simp [List.replicate]

/-- Instance of c2_global_model_created_once: two callers, second data_dir
never reaching the factory. -/
theorem c2_global_model_created_once_witness :
    runGetCalls (fun dd => dd) (⟨"a"⟩ :: [⟨"b"⟩]) none =
      ⟨[⟨"a", false⟩, ⟨"a", false⟩], some ⟨"a", false⟩, ["a"]⟩ := by
  simpa using c2_global_model_created_once String (fun dd => dd) ⟨"a"⟩ [⟨"b"⟩]

/-- Claim C3: with at least one live sender, pushing U1..Un onto the fresh
channel makes the forwarder invoke the observer callback on exactly those
updates, in that order, once each (each callback completing before the next
recv), after which the loop blocks awaiting the next item. -/
theorem c3_forwarder_delivers_in_order (U V : Type) (notify : U → V)
    (senders : Nat) (h : senders ≠ 0) (us : List U) :
    runForwarder notify (Channel.pushAll ⟨[], senders⟩ us) =
      (us.map notify, ForwarderStop.waiting) := by
  rw [pushAll_buffer, List.nil_append, runForwarder_buffer]
  simp [h]

/-- Instance of c3_forwarder_delivers_in_order on three numeric updates. -/
theorem c3_forwarder_delivers_in_order_witness :
    runForwarder Nat.succ (Channel.pushAll ⟨[], 1⟩ [1, 2, 3]) =
      ([2, 3, 4], ForwarderStop.waiting) := by
  simpa using c3_forwarder_delivers_in_order Nat Nat Nat.succ 1
    (by decide) [1, 2, 3]

/-- Claim C4, counterexample: a second call to listen_for_model_updates is
not ignored.  The first registration from the fresh state spawns forwarder
number 1; the second call on the resulting state spawns forwarder number 2,
so two forwarder threads are active, not one. -/
theorem c4_counterexample :
    RmpModel.listen_for_model_updates TestModel.create ⟨"x"⟩ none 0 =
      Except.ok (some ⟨TestModel.create "x", false⟩, 1) ∧
    RmpModel.listen_for_model_updates TestModel.create ⟨"x"⟩
        (some ⟨TestModel.create "x", false⟩) 1 =
      Except.ok (some ⟨TestModel.create "x", false⟩, 2) ∧
    (2 : Nat) ≠ 1 :=
  ⟨rfl, rfl, by decide⟩

/-- Claim C4 (amended): registration is not deduplicated — every call to
listen_for_model_updates on an initialized, unpoisoned container spawns one
additional forwarder thread (all sharing the single cloned receiver), so a
second registration leaves two forwarders running. -/
theorem c4_each_registration_spawns_forwarder (M : Type) (create : String → M)
    (self : RmpModel) (m : M) (k : Nat) :
    RmpModel.listen_for_model_updates create self (some ⟨m, false⟩) k =
      Except.ok (some ⟨m, false⟩, k + 1) :=
  rfl

/-- Instance of c4_each_registration_spawns_forwarder: the second
registration brings the forwarder count to 2. -/
theorem c4_each_registration_spawns_forwarder_witness :
    RmpModel.listen_for_model_updates TestModel.create ⟨"z"⟩
        (some ⟨TestModel.create "x", false⟩) 1 =
      Except.ok (some ⟨TestModel.create "x", false⟩, 2) :=
  c4_each_registration_spawns_forwarder TestModel TestModel.create ⟨"z"⟩
    (TestModel.create "x") 1

/-- Claim C5: with a registered sender whose receiving half is alive,
ViewModel::model_update pushes the update onto the channel; with no sender
registered it silently drops the update, returning normally with no error
and leaving the registry cell unchanged. -/
theorem c5_publish_or_silent_drop (U : Type) (u : U) (vm : Sender U)
    (h : vm.receiverAlive = true) :
    ViewModel.model_update u (some vm) =
      Except.ok (some { vm with queue := vm.queue ++ [u] }) ∧
    ViewModel.model_update u (none : Option (Sender U)) = Except.ok none := by
  refine ⟨?_, rfl⟩
  simp [ViewModel.model_update, h]

/-- Instance of c5_publish_or_silent_drop on a numeric update. -/
theorem c5_publish_or_silent_drop_witness :
    ViewModel.model_update 5 (some (⟨0, [], true⟩ : Sender Nat)) =
      Except.ok (some ⟨0, [5], true⟩) ∧
    ViewModel.model_update 5 (none : Option (Sender Nat)) = Except.ok none := by
  simpa using c5_publish_or_silent_drop Nat 5 ⟨0, [], true⟩ rfl

/-- Claim C6: ViewModel::init is idempotent — after any sequence of init
calls the registry cell holds the first sender bound, and a publish through
the cell still goes out via that first sender. -/
theorem c6_init_idempotent (U : Type) (s1 : Sender U) (rest : List (Sender U))
    (u : U) (h : s1.receiverAlive = true) :
    initAll (s1 :: rest) none = some s1 ∧
    ViewModel.model_update u (initAll (s1 :: rest) none) =
      Except.ok (some { s1 with queue := s1.queue ++ [u] }) := by
  have hcell : initAll (s1 :: rest) none = some s1 := by
    show initAll rest (ViewModel.init s1 none) = some s1
    exact initAll_initialized rest s1
  refine ⟨hcell, ?_⟩
  rw [hcell]
  simp [ViewModel.model_update, h]

/-- Instance of c6_init_idempotent: a second init with a different sender is
a no-op and the publish lands in the first sender channel. -/
theorem c6_init_idempotent_witness :
    initAll ((⟨1, [], true⟩ : Sender Nat) :: [⟨2, [], true⟩]) none =
      some ⟨1, [], true⟩ ∧
    ViewModel.model_update 9
        (initAll ((⟨1, [], true⟩ : Sender Nat) :: [⟨2, [], true⟩]) none) =
      Except.ok (some ⟨1, [9], true⟩) := by
  simpa using c6_init_idempotent Nat ⟨1, [], true⟩ [⟨2, [], true⟩] 9 rfl

/-- Claim C7: on a channel whose senders have all been dropped, the
forwarder loop delivers every item still queued, in order, and then
terminates normally — the thread ends without signalling any error. -/
theorem c7_forwarder_terminates_on_close (U V : Type) (notify : U → V)
    (us : List U) :
    runForwarder notify ⟨us, 0⟩ = (us.map notify, ForwarderStop.closedNormal) := by
  simpa using runForwarder_buffer notify us 0

/-- Instance of c7_forwarder_terminates_on_close on two queued items. -/
theorem c7_forwarder_terminates_on_close_witness :
    runForwarder Nat.succ ⟨[4, 5], 0⟩ = ([5, 6], ForwarderStop.closedNormal) := by
  simpa using c7_forwarder_terminates_on_close Nat Nat Nat.succ [4, 5]

/-- Claim C8: constructing an RmpModel with a data_dir and dispatching a
single TestAction on the uninitialized container creates the model via the
factory and applies the mutation step once: the global model equals
TestModel.create data_dir with its counter incremented, and that counter
is 1. -/
theorem c8_single_dispatch_increments (dd : String) :
    RmpModel.action TestModel.create TestModel.actionStep ⟨dd⟩
        TestAction.testAction none =
      Except.ok (some ⟨TestModel.actionStep (TestModel.create dd)
        TestAction.testAction, false⟩) ∧
    (TestModel.actionStep (TestModel.create dd) TestAction.testAction).count = 1 := by
  exact ⟨rfl, by simp [TestModel.actionStep, TestModel.create]⟩

/-- Instance of c8_single_dispatch_increments at data_dir "x", matching the
end-to-end scenario in the spec and test_action_handling in tests.rs. -/
theorem c8_single_dispatch_increments_witness :
    RmpModel.action TestModel.create TestModel.actionStep ⟨"x"⟩
        TestAction.testAction none =
      Except.ok (some ⟨TestModel.actionStep (TestModel.create "x")
        TestAction.testAction, false⟩) ∧
    (TestModel.actionStep (TestModel.create "x") TestAction.testAction).count = 1 :=
  c8_single_dispatch_increments "x"

/-- Claim C9: once the global cell is initialized, the data_dir of any later
RmpModel instance is ignored — get_or_set_global_model returns the stored
lock and passes nothing to the factory, and action and
listen_for_model_updates on a later instance operate on the stored model
regardless of the data_dir that instance carries. -/
theorem c9_later_data_dir_ignored (M A : Type) (create : String → M)
    (step : M → A → M) (self2 : RmpModel) (l : RwLockState M) (m : M) (a : A)
    (k : Nat) :
    RmpModel.get_or_set_global_model create self2 (some l) = ⟨l, some l, []⟩ ∧
    RmpModel.action create step self2 a (some ⟨m, false⟩) =
      Except.ok (some ⟨step m a, false⟩) ∧
    RmpModel.listen_for_model_updates create self2 (some ⟨m, false⟩) k =
      Except.ok (some ⟨m, false⟩, k + 1) :=
  ⟨rfl, rfl, rfl⟩

/-- Instance of c9_later_data_dir_ignored: the cell was initialized from
data_dir "x"; a second instance built with data_dir "y" still acts on the
model created from "x" and "y" never reaches the factory. -/
theorem c9_later_data_dir_ignored_witness :
    RmpModel.get_or_set_global_model TestModel.create ⟨"y"⟩
        (some ⟨TestModel.create "x", false⟩) =
      ⟨⟨TestModel.create "x", false⟩, some ⟨TestModel.create "x", false⟩, []⟩ ∧
    RmpModel.action TestModel.create TestModel.actionStep ⟨"y"⟩
        TestAction.testAction (some ⟨TestModel.create "x", false⟩) =
      Except.ok (some ⟨TestModel.actionStep (TestModel.create "x")
        TestAction.testAction, false⟩) ∧
    RmpModel.listen_for_model_updates TestModel.create ⟨"y"⟩
        (some ⟨TestModel.create "x", false⟩) 0 =
      Except.ok (some ⟨TestModel.create "x", false⟩, 0 + 1) :=
  c9_later_data_dir_ignored TestModel TestAction TestModel.create
    TestModel.actionStep ⟨"y"⟩ ⟨TestModel.create "x", false⟩
    (TestModel.create "x") TestAction.testAction 0

/-- Claim C10: with a sender registered but the receiving half dropped,
ViewModel::model_update reaches the send-failure branch and panics via
.expect with message "Failed to send model update" instead of returning or
reporting a recoverable error. -/
theorem c10_send_failure_panics (U : Type) (u : U) (vm : Sender U)
    (h : vm.receiverAlive = false) :
    ViewModel.model_update u (some vm) =
      Except.error "Failed to send model update" := by
  simp [ViewModel.model_update, h]

/-- Instance of c10_send_failure_panics with a dropped receiver. -/
theorem c10_send_failure_panics_witness :
    ViewModel.model_update 3 (some (⟨0, [], false⟩ : Sender Nat)) =
      Except.error "Failed to send model update" :=
  c10_send_failure_panics Nat 3 ⟨0, [], false⟩ rfl

end RustMultiplatform
